import Mathlib

/-!
# Verification of the mouse-control gesture pipeline

Shallow embedding of the signal-processing core of the repository
(`src/utils.py`, `src/calibration.py`, `src/mouse_controller.py`,
`src/main.py`).  Python floats are modelled as exact rationals (`ℚ`);
the special value `float('inf')` is modelled by an explicit constructor.
Absent values (`None`) are modelled by `Option`.  The fallible
cursor/click sink (`pyautogui`) is modelled by a boolean input per call
telling whether the sink call succeeds or raises.
-/

namespace MouseControl

/-- A possibly-infinite distance value, the result type of
`utils.calculate_distance` (a Python float that is either a finite
nonnegative value or `float('inf')`). -/
inductive EDist where
  | fin (d : ℚ)
  | inf
deriving DecidableEq, Repr

/-- One frame's hand landmarks, abstracted to exactly the data the core
reads from the MediaPipe `HandLandmarks` object: the palm/wrist point
`landmark[0]` (its x,y), and the three pairwise Euclidean distances the
pipeline computes from landmarks 4/12, 4/8 and 0/9.  The distances are
the exact values of `utils.calculate_distance` on the respective pairs
(always finite when a landmarks object is present, since subscripting a
present landmarks object never yields `None`). -/
structure Frame where
  palm : ℚ × ℚ
  thumbMiddleDist : ℚ
  thumbIndexDist : ℚ
  wristMiddleBaseDist : ℚ
deriving DecidableEq, Repr

/-- `utils.smooth_coordinates`: helper, mean of a list (`np.mean`). -/
def listMean (xs : List ℚ) : ℚ := xs.sum / xs.length

/-- Python slice `xs[-w:]` for a natural `w`: for `w = 0` it is the whole
list, otherwise the last `min w xs.length` elements. -/
def pySliceLast (w : ℕ) (xs : List α) : List α :=
  if w = 0 then xs else xs.drop (xs.length - w)

/-- `utils.smooth_coordinates(position_history, window_size)` (utils.py
lines 46–75): `None` if fewer than 2 samples; otherwise the per-axis mean
of `list(position_history)[-window_size:]`.  The source's
`if pos is not None` filters are identity here because history entries
are always pairs. -/
def smooth_coordinates (position_history : List (ℚ × ℚ)) (window_size : ℕ) :
    Option (ℚ × ℚ) :=
  if position_history.length < 2 then none
  else
    let recent_positions := pySliceLast window_size position_history
    if recent_positions.isEmpty then none
    else
      let x_coords := recent_positions.map Prod.fst
      let y_coords := recent_positions.map Prod.snd
      if x_coords.isEmpty || y_coords.isEmpty then none
      else some (listMean x_coords, listMean y_coords)

/-- `calibration.calculate_scale_factor` reference distance (0.15). -/
def reference_distance : ℚ := 3/20

/-- `calibration.calculate_scale_factor(landmarks)` (calibration.py lines
9–51).  Input: `none` models `landmarks is None`; `some d` models a
present landmarks object whose wrist-to-middle-base distance
(`utils.calculate_distance(landmarks.landmark[0], landmarks.landmark[9])`)
evaluates to `d`.  Returns `None` when the distance is zero or infinite,
else `max(0.5, min(2.0, 0.15 / d))`. -/
def calculate_scale_factor (landmarksDist : Option EDist) : Option ℚ :=
  match landmarksDist with
  | none => none
  | some .inf => none
  | some (.fin d) =>
      if d = 0 then none
      else some (max (1/2) (min 2 (reference_distance / d)))

/-- The controller state: the mutable fields of `MouseController.__init__`
(mouse_controller.py lines 19–37). -/
structure MouseController where
  smoothing_window : ℕ
  position_history : List (ℚ × ℚ)
  last_double_click_time : ℚ
  double_click_debounce : ℚ
  single_click_threshold : ℚ
  double_click_threshold : ℚ
  last_single_click_state : Bool
  last_double_click_state : Bool
deriving DecidableEq, Repr

/-- `MouseController(smoothing_window)`: the initial state (default
argument is 5). -/
def MouseController.mkInit (smoothing_window : ℕ) : MouseController :=
  { smoothing_window := smoothing_window
    position_history := []
    last_double_click_time := 0
    double_click_debounce := 1/2
    single_click_threshold := 1/20
    double_click_threshold := 1/20
    last_single_click_state := false
    last_double_click_state := false }

/-- `deque(maxlen := m).append`: append and drop from the front so that at
most `maxlen` elements remain. -/
def dequeAppend (maxlen : ℕ) (xs : List (ℚ × ℚ)) (a : ℚ × ℚ) : List (ℚ × ℚ) :=
  let ys := xs ++ [a]
  ys.drop (ys.length - maxlen)

/-- The margin of `move_cursor` (mouse_controller.py line 70). -/
def margin : ℚ := 1/10

/-- The margin remap of `move_cursor` (mouse_controller.py lines 71–72):
`(v - margin) / (1.0 - 2 * margin)`. -/
def margin_remap (v : ℚ) : ℚ := (v - margin) / (1 - 2 * margin)

/-- One axis of the coordinate mapping in `move_cursor` (mouse_controller.py
lines 63–80): margin remap, then scale/sensitivity about the center, then
clamp to [0, 1]. -/
def map_axis (v sensitivity scale_factor : ℚ) : ℚ :=
  let v1 := margin_remap v
  let v2 := (v1 - 1/2) * scale_factor * sensitivity + 1/2
  max 0 (min 1 v2)

/-- The full coordinate mapping of `move_cursor` applied to the palm
landmark's (x, y), per axis. -/
def map_to_cursor (lm : ℚ × ℚ) (sensitivity scale_factor : ℚ) : ℚ × ℚ :=
  (map_axis lm.1 sensitivity scale_factor, map_axis lm.2 sensitivity scale_factor)

/-- `MouseController.move_cursor` (mouse_controller.py lines 39–106).
Input `none` models `landmarks is None` (the guard on line 53; the index
bound check never triggers for index 0 on a present 21-landmark object);
`some (px, py)` is the palm landmark's coordinates.  `sinkOk` tells
whether `pyautogui.moveTo` succeeds; on failure the function returns
`false` but the history append has already happened.  The screen-pixel
conversion is external and does not affect controller state. -/
def move_cursor (c : MouseController) (landmark : Option (ℚ × ℚ))
    (sensitivity scale_factor : ℚ) (sinkOk : Bool) : Bool × MouseController :=
  match landmark with
  | none => (false, c)
  | some p =>
      let pos := map_to_cursor p sensitivity scale_factor
      let hist := dequeAppend c.smoothing_window c.position_history pos
      let c' := { c with position_history := hist }
      match smooth_coordinates hist c.smoothing_window with
      | none => (false, c')
      | some _ => if sinkOk then (true, c') else (false, c')

/-- `MouseController.detect_single_click(landmarks)` (mouse_controller.py
lines 108–143).  Input `none` models `landmarks is None`; otherwise the
frame supplies the thumb-to-middle distance.  `sinkOk` models whether
`pyautogui.click()` succeeds; when it raises, the state write after it is
never executed. -/
def detect_single_click (c : MouseController) (landmarks : Option Frame)
    (sinkOk : Bool) : Bool × MouseController :=
  match landmarks with
  | none => (false, c)
  | some f =>
      let dist := f.thumbMiddleDist
      let is_clicking : Bool := decide (dist < c.single_click_threshold)
      if is_clicking && !c.last_single_click_state then
        if sinkOk then (true, { c with last_single_click_state := true })
        else (false, c)
      else if !is_clicking then
        (false, { c with last_single_click_state := false })
      else (false, c)

/-- `MouseController.detect_double_click(landmarks)` (mouse_controller.py
lines 145–186).  `t` is `time.time()` at this call.  The debounce check
precedes every state update; when it fails the function returns at once.
`sinkOk` models whether `pyautogui.doubleClick()` succeeds; when it
raises, neither the timestamp nor the latch is written. -/
def detect_double_click (c : MouseController) (landmarks : Option Frame)
    (t : ℚ) (sinkOk : Bool) : Bool × MouseController :=
  match landmarks with
  | none => (false, c)
  | some f =>
      if t - c.last_double_click_time < c.double_click_debounce then (false, c)
      else
        let dist := f.thumbIndexDist
        let is_clicking : Bool := decide (dist < c.double_click_threshold)
        if is_clicking && !c.last_double_click_state then
          if sinkOk then
            (true, { c with last_double_click_time := t,
                            last_double_click_state := true })
          else (false, c)
        else if !is_clicking then
          (false, { c with last_double_click_state := false })
        else (false, c)

/-- `MouseController.set_click_thresholds` (mouse_controller.py 188–197). -/
def set_click_thresholds (c : MouseController) (single double : ℚ) :
    MouseController :=
  { c with single_click_threshold := single, double_click_threshold := double }

/-- `MouseController.reset` (mouse_controller.py lines 199–204). -/
def reset (c : MouseController) : MouseController :=
  { c with position_history := []
           last_single_click_state := false
           last_double_click_state := false
           last_double_click_time := 0 }

/-- The per-frame controller effect of `VideoProcessor.recv` (main.py lines
195–243): when landmarks are absent nothing of the controller runs; when
present and tracking is active, `move_cursor` with the palm landmark,
then `detect_single_click`, then `detect_double_click` run in order
(drawing and calibration touch no controller state).  Returns the
(moved, singleFired, doubleFired) flags and the new controller state. -/
def recv_step (c : MouseController) (landmarks : Option Frame) (tracking : Bool)
    (sensitivity scale_factor t : ℚ) (moveOk clickOk dclickOk : Bool) :
    (Bool × Bool × Bool) × MouseController :=
  match landmarks with
  | none => ((false, false, false), c)
  | some f =>
      if tracking then
        let mv := move_cursor c (some f.palm) sensitivity scale_factor moveOk
        let sc := detect_single_click mv.2 (some f) clickOk
        let dc := detect_double_click sc.2 (some f) t dclickOk
        ((mv.1, sc.1, dc.1), dc.2)
      else ((false, false, false), c)

/-- A frame whose thumb-to-middle distance is `d`; the other fields are
irrelevant to the single-click detector. -/
def frameSingle (d : ℚ) : Frame :=
  { palm := (0, 0), thumbMiddleDist := d, thumbIndexDist := 1,
    wristMiddleBaseDist := 1 }

/-- A frame whose thumb-to-index distance is `d`; the other fields are
irrelevant to the double-click detector. -/
def frameDouble (d : ℚ) : Frame :=
  { palm := (0, 0), thumbMiddleDist := 1, thumbIndexDist := d,
    wristMiddleBaseDist := 1 }

/-- Run `detect_single_click` over a trace of thumb-to-middle distances
(one frame per sample, sink always succeeding), collecting the fire
flags. -/
def runSingle (c : MouseController) : List ℚ → List Bool × MouseController
  | [] => ([], c)
  | d :: rest =>
      let r := detect_single_click c (some (frameSingle d)) true
      let rs := runSingle r.2 rest
      (r.1 :: rs.1, rs.2)

/-- Run `detect_single_click` over a trace of (thumb-to-middle distance,
sink success) pairs, collecting the fire flags. -/
def runSingleSink (c : MouseController) :
    List (ℚ × Bool) → List Bool × MouseController
  | [] => ([], c)
  | (d, ok) :: rest =>
      let r := detect_single_click c (some (frameSingle d)) ok
      let rs := runSingleSink r.2 rest
      (r.1 :: rs.1, rs.2)

/-- Run `detect_double_click` over a trace of (time, thumb-to-index
distance) samples (sink always succeeding), collecting the fire flags. -/
def runDouble (c : MouseController) : List (ℚ × ℚ) → List Bool × MouseController
  | [] => ([], c)
  | (t, d) :: rest =>
      let r := detect_double_click c (some (frameDouble d)) t true
      let rs := runDouble r.2 rest
      (r.1 :: rs.1, rs.2)

/-- An externally-driven controller operation, as invoked by the
application (`main.py`): a processed video frame, a reset (pause), or a
threshold update. -/
inductive Op where
  | frame (landmarks : Option Frame) (tracking : Bool)
      (sensitivity scale_factor t : ℚ) (moveOk clickOk dclickOk : Bool)
  | reset
  | setThresholds (single double : ℚ)

/-- Apply one operation to the controller state. -/
def applyOp (c : MouseController) : Op → MouseController
  | .frame landmarks tracking sensitivity scale_factor t moveOk clickOk dclickOk =>
      (recv_step c landmarks tracking sensitivity scale_factor t
        moveOk clickOk dclickOk).2
  | .reset => reset c
  | .setThresholds s d => set_click_thresholds c s d

/-- Apply a sequence of operations to the controller state. -/
def applyOps (c : MouseController) (ops : List Op) : MouseController :=
  ops.foldl applyOp c

/-! ## Helper lemmas -/

theorem dequeAppend_length_le (w : ℕ) (xs : List (ℚ × ℚ)) (a : ℚ × ℚ) :
    (dequeAppend w xs a).length ≤ w := by
  simp only [dequeAppend, List.length_drop, List.length_append, List.length_cons,
    List.length_nil]
  omega

theorem move_cursor_state_some (c : MouseController) (p : ℚ × ℚ)
    (s f : ℚ) (ok : Bool) :
    (move_cursor c (some p) s f ok).2
      = { c with position_history := (dequeAppend c.smoothing_window
            c.position_history (map_to_cursor p s f)) } := by
  unfold move_cursor
  dsimp only
  split
  · rfl
  · split <;> rfl

theorem move_cursor_window (c : MouseController) (l : Option (ℚ × ℚ))
    (s f : ℚ) (ok : Bool) :
    (move_cursor c l s f ok).2.smoothing_window = c.smoothing_window := by
  match l with
  | none => rfl
  | some p => rw [move_cursor_state_some]

theorem move_cursor_hist_le (c : MouseController) (l : Option (ℚ × ℚ))
    (s f : ℚ) (ok : Bool) (h : c.position_history.length ≤ c.smoothing_window) :
    (move_cursor c l s f ok).2.position_history.length ≤ c.smoothing_window := by
  match l with
  | none => exact h
  | some p =>
      rw [move_cursor_state_some]
      exact dequeAppend_length_le _ _ _

theorem detect_single_click_state (c : MouseController) (l : Option Frame)
    (ok : Bool) :
    ∃ b : Bool, (detect_single_click c l ok).2
      = { c with last_single_click_state := b } := by
  match l with
  | none => exact ⟨c.last_single_click_state, rfl⟩
  | some f =>
      unfold detect_single_click
      dsimp only
      split
      · cases ok
        · exact ⟨c.last_single_click_state, rfl⟩
        · exact ⟨true, rfl⟩
      · split
        · exact ⟨false, rfl⟩
        · exact ⟨c.last_single_click_state, rfl⟩

theorem detect_double_click_state (c : MouseController) (l : Option Frame)
    (t : ℚ) (ok : Bool) :
    ∃ (b : Bool) (u : ℚ), (detect_double_click c l t ok).2
      = { c with last_double_click_state := b, last_double_click_time := u } := by
  match l with
  | none => exact ⟨c.last_double_click_state, c.last_double_click_time, rfl⟩
  | some f =>
      unfold detect_double_click
      dsimp only
      split
      · exact ⟨c.last_double_click_state, c.last_double_click_time, rfl⟩
      · split
        · cases ok
          · exact ⟨c.last_double_click_state, c.last_double_click_time, rfl⟩
          · exact ⟨true, t, rfl⟩
        · split
          · exact ⟨false, c.last_double_click_time, rfl⟩
          · exact ⟨c.last_double_click_state, c.last_double_click_time, rfl⟩

theorem detect_single_click_window (c : MouseController) (l : Option Frame)
    (ok : Bool) :
    (detect_single_click c l ok).2.smoothing_window = c.smoothing_window := by
  obtain ⟨b, hb⟩ := detect_single_click_state c l ok
  rw [hb]

theorem detect_single_click_hist (c : MouseController) (l : Option Frame)
    (ok : Bool) :
    (detect_single_click c l ok).2.position_history = c.position_history := by
  obtain ⟨b, hb⟩ := detect_single_click_state c l ok
  rw [hb]

theorem detect_double_click_window (c : MouseController) (l : Option Frame)
    (t : ℚ) (ok : Bool) :
    (detect_double_click c l t ok).2.smoothing_window = c.smoothing_window := by
  obtain ⟨b, u, hb⟩ := detect_double_click_state c l t ok
  rw [hb]

theorem detect_double_click_hist (c : MouseController) (l : Option Frame)
    (t : ℚ) (ok : Bool) :
    (detect_double_click c l t ok).2.position_history = c.position_history := by
  obtain ⟨b, u, hb⟩ := detect_double_click_state c l t ok
  rw [hb]

theorem applyOp_window (c : MouseController) (op : Op) :
    (applyOp c op).smoothing_window = c.smoothing_window := by
  match op with
  | .reset => rfl
  | .setThresholds s d => rfl
  | .frame l tracking s f t m k d =>
      show (recv_step c l tracking s f t m k d).2.smoothing_window = _
      match l with
      | none => rfl
      | some fr =>
          unfold recv_step
          dsimp only
          split
          · rw [detect_double_click_window, detect_single_click_window,
              move_cursor_window]
          · rfl

theorem applyOp_hist_le (c : MouseController) (op : Op)
    (h : c.position_history.length ≤ c.smoothing_window) :
    (applyOp c op).position_history.length ≤ (applyOp c op).smoothing_window := by
  rw [applyOp_window]
  match op with
  | .reset => simp [applyOp, reset]
  | .setThresholds s d => exact h
  | .frame l tracking s f t m k d =>
      show (recv_step c l tracking s f t m k d).2.position_history.length ≤ _
      match l with
      | none => exact h
      | some fr =>
          unfold recv_step
          dsimp only
          split
          · rw [detect_double_click_hist, detect_single_click_hist]
            exact move_cursor_hist_le c (some fr.palm) s f m h
          · exact h

theorem applyOps_hist_le (ops : List Op) :
    ∀ c : MouseController, c.position_history.length ≤ c.smoothing_window →
      (applyOps c ops).position_history.length ≤ (applyOps c ops).smoothing_window := by
  induction ops with
  | nil => intro c h; exact h
  | cons op rest ih =>
      intro c h
      exact ih (applyOp c op) (applyOp_hist_le c op h)

theorem applyOps_window (ops : List Op) :
    ∀ c : MouseController, (applyOps c ops).smoothing_window = c.smoothing_window := by
  induction ops with
  | nil => intro c; rfl
  | cons op rest ih =>
      intro c
      rw [show applyOps c (op :: rest) = applyOps (applyOp c op) rest from rfl,
        ih, applyOp_window]

/-! ## Claim theorems -/

/-- C2 counterexample: with absent landmarks (`None`), neither detector
resets its engaged latch to IDLE: an engaged latch survives the call. -/
theorem C2_counterexample_no_reset_on_absent :
    (detect_single_click
        { MouseController.mkInit 5 with last_single_click_state := true }
        none true).2.last_single_click_state = true ∧
    (detect_double_click
        { MouseController.mkInit 5 with last_double_click_state := true,
                                        last_double_click_time := 1 }
        none 2 true).2.last_double_click_state = true := ⟨rfl, rfl⟩

/-- C2 amended: calling either click detector with absent landmarks fires
no click and leaves the detector state exactly unchanged (in particular
the engaged latch is not reset to IDLE, so a stale engaged latch persists
across a tracking gap). -/
theorem C2_absent_landmarks_detector_noop :
    (∀ (c : MouseController) (ok : Bool),
        detect_single_click c none ok = (false, c)) ∧
    (∀ (c : MouseController) (t : ℚ) (ok : Bool),
        detect_double_click c none t ok = (false, c)) :=
  ⟨fun _ _ => rfl, fun _ _ _ => rfl⟩

/-- C3: a frame with absent landmarks produces no cursor move and no
click evaluation, and leaves the whole controller state (position
history, both click latches, debounce timestamp) exactly unchanged. -/
theorem C3_absent_landmarks_frame_noop (c : MouseController) (tracking : Bool)
    (sensitivity scale_factor t : ℚ) (moveOk clickOk dclickOk : Bool) :
    recv_step c none tracking sensitivity scale_factor t moveOk clickOk dclickOk
      = ((false, false, false), c) ∧
    (recv_step c none tracking sensitivity scale_factor t
        moveOk clickOk dclickOk).2.position_history = c.position_history ∧
    (recv_step c none tracking sensitivity scale_factor t
        moveOk clickOk dclickOk).2.last_single_click_state
      = c.last_single_click_state ∧
    (recv_step c none tracking sensitivity scale_factor t
        moveOk clickOk dclickOk).2.last_double_click_state
      = c.last_double_click_state ∧
    (recv_step c none tracking sensitivity scale_factor t
        moveOk clickOk dclickOk).2.last_double_click_time
      = c.last_double_click_time :=
  ⟨rfl, rfl, rfl, rfl, rfl⟩

/-- C5: the single-click detector fires exactly on a frame whose
thumb-to-middle distance is below the threshold while the latch is
disengaged; afterwards the latch equals "distance below threshold", so no
further click fires until the distance rises to at least the threshold
and crosses below again; on the distance trace
[0.1, 0.1, 0.03, 0.03, 0.1] with threshold 0.05 exactly one click fires,
on the third sample. -/
theorem C5_single_click_edge :
    (∀ (c : MouseController) (f : Frame),
        (detect_single_click c (some f) true).1 = true ↔
          f.thumbMiddleDist < c.single_click_threshold ∧
          c.last_single_click_state = false) ∧
    (∀ (c : MouseController) (f : Frame),
        (detect_single_click c (some f) true).2.last_single_click_state
          = decide (f.thumbMiddleDist < c.single_click_threshold)) ∧
    (runSingle (MouseController.mkInit 5) [1/10, 1/10, 3/100, 3/100, 1/10]).1
      = [false, false, true, false, false] := by
  refine ⟨?_, ?_, ?_⟩
  · intro c f
    by_cases hd : f.thumbMiddleDist < c.single_click_threshold <;>
      cases hs : c.last_single_click_state <;>
      simp [detect_single_click, hd, hs]
  · intro c f
    by_cases hd : f.thumbMiddleDist < c.single_click_threshold <;>
      cases hs : c.last_single_click_state <;>
      simp [detect_single_click, hd, hs]
  · norm_num [runSingle, detect_single_click, frameSingle, MouseController.mkInit]

/-- C6: calibration returns `None` for absent landmarks and for a zero or
infinite reference distance; otherwise it returns
`clamp(0.15 / d, 0.5, 2.0)`; `d = 0.15` yields 1.0, `d = 0.075` yields
2.0, `d = 0.3` yields 0.5; every non-`None` result lies in [0.5, 2.0]. -/
theorem C6_calibration_scale :
    calculate_scale_factor none = none ∧
    calculate_scale_factor (some .inf) = none ∧
    calculate_scale_factor (some (.fin 0)) = none ∧
    (∀ d : ℚ, d ≠ 0 → calculate_scale_factor (some (.fin d))
        = some (max (1/2) (min 2 ((3/20) / d)))) ∧
    calculate_scale_factor (some (.fin (3/20))) = some 1 ∧
    calculate_scale_factor (some (.fin (3/40))) = some 2 ∧
    calculate_scale_factor (some (.fin (3/10))) = some (1/2) ∧
    (∀ (x : Option EDist) (sc : ℚ), calculate_scale_factor x = some sc →
        1/2 ≤ sc ∧ sc ≤ 2) := by
  refine ⟨rfl, rfl, by norm_num [calculate_scale_factor], ?_, ?_, ?_, ?_, ?_⟩
  · intro d hd
    simp [calculate_scale_factor, hd, reference_distance]
  · norm_num [calculate_scale_factor, reference_distance]
  · norm_num [calculate_scale_factor, reference_distance]
  · norm_num [calculate_scale_factor, reference_distance]
  · rintro (_ | (⟨d⟩ | _)) sc h
    · simp [calculate_scale_factor] at h
    · by_cases hd : d = 0
      · simp [calculate_scale_factor, hd] at h
      · rw [show calculate_scale_factor (some (.fin d))
            = (if d = 0 then none
                else some (max (1/2) (min 2 (reference_distance / d)))) from rfl,
          if_neg hd, Option.some_inj] at h
        rw [h.symm]
        exact ⟨le_max_left _ _, max_le (by norm_num) (min_le_left _ _)⟩
    · simp [calculate_scale_factor] at h

/-- C6 witness: the general branches of the calibration theorem applied
at the concrete distance 0.15. -/
theorem C6_calibration_scale_witness :
    calculate_scale_factor (some (.fin (3/20)))
      = some (max (1/2) (min 2 ((3/20) / (3/20)))) ∧
    (1/2 ≤ (1 : ℚ) ∧ (1 : ℚ) ≤ 2) :=
  ⟨C6_calibration_scale.2.2.2.1 (3/20) (by norm_num),
   C6_calibration_scale.2.2.2.2.2.2.2 (some (.fin (3/20))) 1
     C6_calibration_scale.2.2.2.2.1⟩

/-- C7: the mapped cursor position equals, per axis, the clamp to [0,1]
of `((v - 0.1)/0.8 - 0.5) * scale_factor * sensitivity + 0.5`; the output
always lies in the unit square; input (0.5, 0.5) with sensitivity 1 and
scale 1 maps to exactly (0.5, 0.5); input coordinate 0.1 is remapped to
0.0 before the scale/sensitivity step; and `move_cursor` appends exactly
this mapped position to the history. -/
theorem C7_coordinate_mapping :
    (∀ v s f : ℚ, map_axis v s f
        = max 0 (min 1 (((v - 1/10) / (8/10) - 1/2) * f * s + 1/2))) ∧
    (∀ (lm : ℚ × ℚ) (s f : ℚ),
        0 ≤ (map_to_cursor lm s f).1 ∧ (map_to_cursor lm s f).1 ≤ 1 ∧
        0 ≤ (map_to_cursor lm s f).2 ∧ (map_to_cursor lm s f).2 ≤ 1) ∧
    map_to_cursor (1/2, 1/2) 1 1 = (1/2, 1/2) ∧
    margin_remap (1/10) = 0 ∧
    (∀ (c : MouseController) (p : ℚ × ℚ) (s f : ℚ) (ok : Bool),
        (move_cursor c (some p) s f ok).2.position_history
          = dequeAppend c.smoothing_window c.position_history
              (map_to_cursor p s f)) := by
  refine ⟨?_, ?_, ?_, ?_, ?_⟩
  · intro v s f
    norm_num [map_axis, margin_remap, margin]
  · intro lm s f
    refine ⟨le_max_left _ _, ?_, le_max_left _ _, ?_⟩ <;>
      exact max_le (by norm_num) (min_le_left _ _)
  · norm_num [map_to_cursor, map_axis, margin_remap, margin]
  · norm_num [margin_remap, margin]
  · intro c p s f ok
    rw [move_cursor_state_some]

/-- C8: smoothing returns `None` on a history of fewer than 2 entries;
with at least 2 entries and a positive window `w` it returns the
per-axis arithmetic mean of the last `min w length` entries; history
[(0,0),(1,1)] with window 5 yields (0.5, 0.5). -/
theorem C8_smoothing :
    (∀ (h : List (ℚ × ℚ)) (w : ℕ), h.length < 2 →
        smooth_coordinates h w = none) ∧
    (∀ (h : List (ℚ × ℚ)) (w : ℕ), 2 ≤ h.length → 1 ≤ w →
        smooth_coordinates h w
          = some ((((h.drop (h.length - min w h.length)).map Prod.fst).sum
                      / ((min w h.length : ℕ) : ℚ)),
                  (((h.drop (h.length - min w h.length)).map Prod.snd).sum
                      / ((min w h.length : ℕ) : ℚ)))) ∧
    smooth_coordinates [(0, 0), (1, 1)] 5 = some (1/2, 1/2) ∧
    smooth_coordinates [(0, 0)] 5 = none := by
  refine ⟨?_, ?_, ?_, ?_⟩
  · intro h w hlen
    simp [smooth_coordinates, hlen]
  · intro h w hlen hw
    have hw0 : w ≠ 0 := by omega
    have hlendrop : (h.drop (h.length - w)).length = min w h.length := by
      rw [List.length_drop]; omega
    have hne : (h.drop (h.length - w)).isEmpty = false := by
      rcases hd : h.drop (h.length - w) with _ | ⟨x, xs⟩
      · rw [hd] at hlendrop
        simp only [List.length_nil] at hlendrop
        omega
      · rfl
    have hnex : ((h.drop (h.length - w)).map Prod.fst).isEmpty = false := by
      rcases hd : h.drop (h.length - w) with _ | ⟨x, xs⟩
      · rw [hd] at hne; exact hne
      · rfl
    have hney : ((h.drop (h.length - w)).map Prod.snd).isEmpty = false := by
      rcases hd : h.drop (h.length - w) with _ | ⟨x, xs⟩
      · rw [hd] at hne; exact hne
      · rfl
    have hnlt : ¬ h.length < 2 := by omega
    have hdrop : h.length - min w h.length = h.length - w := by omega
    conv_rhs => rw [hdrop]
    rw [smooth_coordinates]
    simp only [pySliceLast, if_neg hw0, if_neg hnlt, hne, hnex, hney,
      Bool.false_or, Bool.false_eq_true, if_false, listMean,
      List.length_map, hlendrop]
  · norm_num [smooth_coordinates, pySliceLast, listMean]
  · norm_num [smooth_coordinates]

/-- C8 witness: the two guarded branches of the smoothing theorem applied
at a singleton history and at the concrete two-entry history. -/
theorem C8_smoothing_witness :
    smooth_coordinates [((0 : ℚ), (0 : ℚ))] 3 = none ∧
    smooth_coordinates [((0 : ℚ), (0 : ℚ)), (1, 1)] 5
      = some (((([((0 : ℚ), (0 : ℚ)), (1, 1)].drop (2 - min 5 2)).map
                  Prod.fst).sum / ((min 5 2 : ℕ) : ℚ)),
              ((([((0 : ℚ), (0 : ℚ)), (1, 1)].drop (2 - min 5 2)).map
                  Prod.snd).sum / ((min 5 2 : ℕ) : ℚ))) :=
  ⟨C8_smoothing.1 _ 3 (by norm_num),
   C8_smoothing.2.1 [((0 : ℚ), (0 : ℚ)), (1, 1)] 5 (by norm_num) (by norm_num)⟩

/-- C9: across any sequence of controller operations (frames with cursor
moves and click detection, resets, threshold updates) the position
history length never exceeds the configured smoothing-window capacity;
appending to a full nonempty history evicts the oldest entry. -/
theorem C9_history_bounded :
    (∀ (w : ℕ) (ops : List Op),
        (applyOps (MouseController.mkInit w) ops).position_history.length ≤ w) ∧
    (∀ (w : ℕ) (xs : List (ℚ × ℚ)) (a : ℚ × ℚ), xs.length = w → 0 < w →
        dequeAppend w xs a = xs.tail ++ [a]) := by
  constructor
  · intro w ops
    have h := applyOps_hist_le ops (MouseController.mkInit w) (by simp [MouseController.mkInit])
    rwa [applyOps_window] at h
  · intro w xs a hlen hpos
    have hne : xs ≠ [] := by
      intro hnil
      rw [hnil] at hlen
      simp at hlen
      omega
    rw [dequeAppend]
    simp only [List.length_append, List.length_cons, List.length_nil, hlen]
    rw [show w + 0 + 1 - w = 1 by omega]
    rw [List.drop_one, List.tail_append_of_ne_nil hne]

/-- C9 witness: the eviction branch applied to a full one-element history
with capacity 1. -/
theorem C9_history_bounded_witness :
    dequeAppend 1 [((0 : ℚ), (0 : ℚ))] (1, 1) = [((0 : ℚ), (0 : ℚ))].tail ++ [(1, 1)] :=
  C9_history_bounded.2 1 [((0 : ℚ), (0 : ℚ))] (1, 1) rfl (by norm_num)

/-- C10: if the click sink raises while a click is being fired, the
detector state is completely unchanged — the engaged latch is not set and
(for double-click) the last-fire timestamp is not updated — so a
sustained pinch re-attempts the click on every subsequent frame until an
attempt succeeds, as on the sample run where the sink fails twice and
then succeeds. -/
theorem C10_sink_error_state_unchanged :
    (∀ (c : MouseController) (f : Frame),
        f.thumbMiddleDist < c.single_click_threshold →
        c.last_single_click_state = false →
        detect_single_click c (some f) false = (false, c)) ∧
    (∀ (c : MouseController) (f : Frame) (t : ℚ),
        c.double_click_debounce ≤ t - c.last_double_click_time →
        f.thumbIndexDist < c.double_click_threshold →
        c.last_double_click_state = false →
        detect_double_click c (some f) t false = (false, c)) ∧
    (runSingleSink (MouseController.mkInit 5)
        [(3/100, false), (3/100, false), (3/100, true), (3/100, false)]).1
      = [false, false, true, false] := by
  refine ⟨?_, ?_, ?_⟩
  · intro c f hd hs
    simp [detect_single_click, hd, hs]
  · intro c f t ht hd hs
    simp [detect_double_click, not_lt.mpr ht, hd, hs]
  · norm_num [runSingleSink, detect_single_click, frameSingle, MouseController.mkInit]

/-- C10 witness: the two sink-failure branches applied at a concrete
pinched frame from a disengaged state. -/
theorem C10_sink_error_witness :
    detect_single_click (MouseController.mkInit 5) (some (frameSingle (3/100))) false
      = (false, MouseController.mkInit 5) ∧
    detect_double_click (MouseController.mkInit 5) (some (frameDouble (3/100))) 1 false
      = (false, MouseController.mkInit 5) :=
  ⟨C10_sink_error_state_unchanged.1 (MouseController.mkInit 5) (frameSingle (3/100))
      (by norm_num [frameSingle, MouseController.mkInit])
      rfl,
   C10_sink_error_state_unchanged.2.1 (MouseController.mkInit 5) (frameDouble (3/100)) 1
      (by norm_num [frameDouble, MouseController.mkInit])
      (by norm_num [frameDouble, MouseController.mkInit])
      rfl⟩

/-- C1 counterexample: from the initial state, the time/distance trace
with samples at times 1, 1.1, 1.2, 1.3, 1.7 and distances 0.03, 0.1,
0.03, 0.1, 0.03 (threshold 0.05, debounce 0.5) has qualifying edges at
samples 0 and 2 within 0.5s of each other and a third edge at sample 4,
0.7s after the only fire — yet sample 4 does not fire, because the
release samples at times 1.1 and 1.3 fell inside the debounce window and
were ignored, leaving the latch engaged.  The second run shows the same
for a re-crossing with no intervening release: sample 3 at time 1.7 is
below threshold after the window yet does not fire.  The side inequalities
make the edge/timing qualifications of the claim explicit. -/
theorem C1_counterexample_third_edge :
    ((3 : ℚ)/100 < 1/20 ∧ (1 : ℚ)/20 ≤ 1/10 ∧
      (6 : ℚ)/5 - 1 < 1/2 ∧ (1 : ℚ)/2 ≤ 17/10 - 1) ∧
    (runDouble (MouseController.mkInit 5)
        [(1, 3/100), (11/10, 1/10), (6/5, 3/100), (13/10, 1/10),
         (17/10, 3/100)]).1
      = [true, false, false, false, false] ∧
    (runDouble (MouseController.mkInit 5)
        [(1, 3/100), (11/10, 1/10), (6/5, 3/100), (17/10, 3/100)]).1
      = [true, false, false, false] := by
  refine ⟨by norm_num, ?_, ?_⟩ <;>
    norm_num [runDouble, detect_double_click, frameDouble, MouseController.mkInit]

/-- C1 amended: within the debounce window the double-click detector
performs no state update at all — any call (edge, hold or release)
returns no fire and leaves the state unchanged, so a suppressed edge does
not advance the latch to ENGAGED, but a release inside the window also
does not clear an engaged latch.  An edge at a disengaged latch on or
after the window fires and records the fire time.  On the sample trace,
two qualifying edges within 0.5s fire only the first, and a third edge
after the window fires again because the release is processed after the
window has elapsed. -/
theorem C1_double_click_debounce :
    (∀ (c : MouseController) (f : Frame) (t : ℚ) (ok : Bool),
        t - c.last_double_click_time < c.double_click_debounce →
        detect_double_click c (some f) t ok = (false, c)) ∧
    (∀ (c : MouseController) (f : Frame) (t : ℚ),
        c.double_click_debounce ≤ t - c.last_double_click_time →
        f.thumbIndexDist < c.double_click_threshold →
        c.last_double_click_state = false →
        detect_double_click c (some f) t true
          = (true, { c with last_double_click_time := t,
                            last_double_click_state := true })) ∧
    (runDouble (MouseController.mkInit 5)
        [(1, 3/100), (11/10, 1/10), (6/5, 3/100), (8/5, 1/10),
         (17/10, 3/100)]).1
      = [true, false, false, false, true] := by
  refine ⟨?_, ?_, ?_⟩
  · intro c f t ok ht
    simp [detect_double_click, ht]
  · intro c f t ht hd hs
    simp [detect_double_click, not_lt.mpr ht, hd, hs]
  · norm_num [runDouble, detect_double_click, frameDouble, MouseController.mkInit]

/-- C1 witness: the suppression branch and the fresh-edge branch of the
debounce theorem applied at concrete states and times. -/
theorem C1_double_click_debounce_witness :
    detect_double_click
        { MouseController.mkInit 5 with last_double_click_time := 1 }
        (some (frameDouble (3/100))) (6/5) true
      = (false, { MouseController.mkInit 5 with last_double_click_time := 1 }) ∧
    detect_double_click (MouseController.mkInit 5)
        (some (frameDouble (3/100))) 1 true
      = (true, { MouseController.mkInit 5 with last_double_click_time := 1,
                                               last_double_click_state := true }) :=
  ⟨C1_double_click_debounce.1
      { MouseController.mkInit 5 with last_double_click_time := 1 }
      (frameDouble (3/100)) (6/5) true
      (by norm_num [MouseController.mkInit]),
   C1_double_click_debounce.2.1 (MouseController.mkInit 5)
      (frameDouble (3/100)) 1
      (by norm_num [MouseController.mkInit])
      (by norm_num [frameDouble, MouseController.mkInit])
      rfl⟩

/-- C4 counterexample: after an engaging frame followed by `reset()`, the
very next below-threshold sample DOES fire a single click (the claim
says no click fires). -/
theorem C4_counterexample_click_after_reset :
    ((3 : ℚ)/100 < 1/20) ∧
    (detect_single_click
        (reset (applyOps (MouseController.mkInit 5)
          [Op.frame (some (frameSingle (3/100))) true 1 1 1 true true true]))
        (some (frameSingle (3/100))) true).1 = true := by
  constructor
  · norm_num
  · norm_num [applyOps, applyOp, recv_step, reset, detect_single_click,
      detect_double_click, move_cursor, map_to_cursor, map_axis, margin_remap,
      margin, dequeAppend, smooth_coordinates, pySliceLast, listMean,
      frameSingle, MouseController.mkInit]

/-- C4 amended: after `reset()` following any sequence of operations the
position history is empty, both click latches are IDLE, and the
double-click debounce timer is zero; consequently a click DOES fire on
the next below-threshold sample processed after the reset, because the
reset returns the latch to IDLE and the sample is a fresh
IDLE-to-ENGAGED edge. -/
theorem C4_reset_state :
    (∀ (w : ℕ) (ops : List Op),
        (reset (applyOps (MouseController.mkInit w) ops)).position_history = [] ∧
        (reset (applyOps (MouseController.mkInit w) ops)).last_single_click_state
          = false ∧
        (reset (applyOps (MouseController.mkInit w) ops)).last_double_click_state
          = false ∧
        (reset (applyOps (MouseController.mkInit w) ops)).last_double_click_time
          = 0) ∧
    (∀ (c : MouseController) (f : Frame),
        f.thumbMiddleDist < (reset c).single_click_threshold →
        (detect_single_click (reset c) (some f) true).1 = true) := by
  constructor
  · intro w ops
    exact ⟨rfl, rfl, rfl, rfl⟩
  · intro c f hd
    have hd' : f.thumbMiddleDist < c.single_click_threshold := hd
    simp [detect_single_click, reset, hd']

/-- C4 witness: the reset-state facts after one concrete frame, and the
fresh-edge fire after a reset at a concrete pinched frame. -/
theorem C4_reset_state_witness :
    (reset (applyOps (MouseController.mkInit 5)
        [Op.frame (some (frameSingle (3/100))) true 1 1 1 true true true])
      ).position_history = [] ∧
    (detect_single_click (reset (MouseController.mkInit 5))
        (some (frameSingle (3/100))) true).1 = true :=
  ⟨(C4_reset_state.1 5
      [Op.frame (some (frameSingle (3/100))) true 1 1 1 true true true]).1,
   C4_reset_state.2 (MouseController.mkInit 5) (frameSingle (3/100))
      (by norm_num [frameSingle, reset, MouseController.mkInit])⟩

end MouseControl
